import Mathlib

/-!
Shallow embedding of the postmatex source (a TypeScript port of Postmate):
the wire envelope schema, the `sanitize` guard, the child-side model
resolution (`resolveValue`), the post-handshake parent and child message
listeners, the handshake initiator retry loop (`sendHandshake`) and the
child handshake responder (`Model.sendHandshakeReply`), each translated
directly from the source file.  Theorems below settle the frozen claims
about this code.
-/

/-- JavaScript-style runtime values at the granularity the protocol uses:
`undef` is `undefined`; `vnamed name data` models an object of shape
`\x7b name, data \x7d` (the payload of an `emit` envelope). -/
inductive Val where
  | undef : Val
  | vnat : Nat → Val
  | vstr : String → Val
  | vbool : Bool → Val
  | vnamed : Val → Val → Val
  deriving DecidableEq, Repr

/-- JavaScript truthiness of a value. -/
def valTruthy : Val → Bool
  | Val.undef => false
  | Val.vnat n => n != 0
  | Val.vstr s => s != ""
  | Val.vbool b => b
  | Val.vnamed _ _ => true

/-- Whether `typeof v` is the string "object". -/
def valIsObject : Val → Bool
  | Val.vnamed _ _ => true
  | _ => false

/-- JavaScript property-key coercion of a value to a string (an `undefined`
key reads the property named "undefined", a number is stringified, ...). -/
def jsKey : Val → String
  | Val.vstr s => s
  | Val.undef => "undefined"
  | Val.vnat n => toString n
  | Val.vbool b => if b then "true" else "false"
  | Val.vnamed _ _ => "[object Object]"

/-- Key coercion for an optional string field used as a property key:
an absent field is `undefined` and coerces to the key "undefined". -/
def jsKeyOpt : Option String → String
  | some s => s
  | none => "undefined"

/-- A JavaScript object, as the ordered list of its own properties. -/
abbrev Obj (α : Type) := List (String × α)

/-- Property read `o[key]` (first binding wins; a real JS object has
distinct keys, so on such objects this is exactly property lookup). -/
def objGet {α : Type} : Obj α → String → Option α
  | [], _ => none
  | (k, v) :: rest, key => if k = key then some v else objGet rest key

/-- Property write `o[key] = v`: overwrite in place when the key exists,
append otherwise. -/
def objSet {α : Type} : Obj α → String → α → Obj α
  | [], key, v => [(key, v)]
  | (k, w) :: rest, key, v =>
      if k = key then (key, v) :: rest else (k, w) :: objSet rest key v

/-- `export const messageType = 'application/x-postmate-v1+json'`. -/
def messageType : String := "application/x-postmate-v1+json"

/-- `export const maxHandshakeRequests = 5`. -/
def maxHandshakeRequests : Nat := 5

/-- The keys of the source's `messageTypes` literal. -/
def recognizedKinds : List String :=
  ["handshake", "handshake-reply", "call", "emit", "reply", "request"]

/-- The property names a plain object literal inherits from
`Object.prototype`; each holds a function (or, for `__proto__`, an
object), so each is truthy under bracket lookup. -/
def objectPrototypeKeys : List String :=
  ["constructor", "hasOwnProperty", "isPrototypeOf", "propertyIsEnumerable",
   "toLocaleString", "toString", "valueOf", "__proto__",
   "__defineGetter__", "__defineSetter__", "__lookupGetter__",
   "__lookupSetter__"]

/-- The truthiness test `messageTypes[k]`: `messageTypes` is a plain
object literal whose six own keys hold `1`, and JavaScript bracket lookup
falls through to the prototype chain, so the name of any inherited
`Object.prototype` member is also truthy (an undefined key is falsy). -/
def messageTypesLookup : Option String → Bool
  | some s => recognizedKinds.contains s || objectPrototypeKeys.contains s
  | none => false

/-- The fields an envelope-shaped payload object may carry.  An `Option`
field that is `none` models the field being absent from the object.
Note the source has BOTH a `key` field (set by the parent's `get`/`call`
senders) and a `property` field (read by the child dispatcher). -/
structure MsgData where
  postmate : Option String := none
  type : Option String := none
  key : Option String := none
  property : Option String := none
  uid : Option Nat := none
  data : Option Val := none
  value : Option Val := none
  model : Option (Obj Val) := none
  deriving DecidableEq, Repr

/-- A message payload: either an envelope-shaped object or some other
runtime value. -/
inductive Payload where
  | prim : Val → Payload
  | obj : MsgData → Payload
  deriving DecidableEq, Repr

/-- A browser `message` event as the listeners see it: the sender origin,
the sender window (`e.source`, as an identifier) and the payload
(`none` models an absent/falsy-undefined payload). -/
structure MessageEvent where
  origin : String
  source : String
  data : Option Payload
  deriving DecidableEq, Repr

/-- Truthiness of `message.data`. -/
def payloadTruthy : Option Payload → Bool
  | none => false
  | some (Payload.prim v) => valTruthy v
  | some (Payload.obj _) => true

/-- Whether `typeof message.data` is "object". -/
def payloadIsObject : Option Payload → Bool
  | some (Payload.obj _) => true
  | some (Payload.prim v) => valIsObject v
  | none => false

/-- The membership test `'postmate' in message.data`. -/
def payloadHasPostmate : Option Payload → Bool
  | some (Payload.obj d) => d.postmate.isSome
  | _ => false

/-- The field read `message.data.postmate` (undefined off an object or
when absent). -/
def payloadPostmate : Option Payload → Option String
  | some (Payload.obj d) => d.postmate
  | _ => none

/-- The field read `message.data.type`. -/
def payloadType : Option Payload → Option String
  | some (Payload.obj d) => d.type
  | _ => none

/-- The field read `message.data.value`, defaulted as in
`(((e || \x7b\x7d).data || \x7b\x7d).value || \x7b\x7d)`. -/
def payloadValue : Option Payload → Val
  | some (Payload.obj d) => d.value.getD Val.undef
  | _ => Val.undef

/-- The field read `message.data.model`. -/
def payloadModel : Option Payload → Option (Obj Val)
  | some (Payload.obj d) => d.model
  | _ => none

/-- Destructuring `.name` from an emit value object. -/
def valueName : Val → Val
  | Val.vnamed n _ => n
  | _ => Val.undef

/-- Destructuring `.data` from an emit value object. -/
def valueData : Val → Val
  | Val.vnamed _ d => d
  | _ => Val.undef

/-- Direct translation of `sanitize(message, allowedOrigin)` from the
source: the sequential rejection checks, in source order.  A pure
predicate (no side effects, by construction). -/
def sanitize (message : MessageEvent) (allowedOrigin : Option String) : Bool :=
  if (match allowedOrigin with
      | some o => message.origin != o
      | none => false) then false
  else if !payloadTruthy message.data then false
  else if payloadIsObject message.data && !payloadHasPostmate message.data then false
  else if payloadType message.data != some messageType then false
  else if !messageTypesLookup (payloadPostmate message.data) then false
  else true

example : sanitize
    { origin := "https://child.example", source := "c",
      data := some (Payload.obj
        { postmate := some "reply", type := some messageType }) }
    (some "https://child.example") = true := by decide

example : sanitize
    { origin := "https://evil.example", source := "c",
      data := some (Payload.obj
        { postmate := some "reply", type := some messageType }) }
    (some "https://child.example") = false := by decide

/-- What a zero-argument model function returns when invoked: a value
directly, or a promise resolving with a value. -/
inductive RetVal where
  | val : Val → RetVal
  | promise : Val → RetVal
  deriving DecidableEq, Repr

/-- The eventual value a `RetVal` resolves to under `Promise.resolve`. -/
def retVal : RetVal → Val
  | RetVal.val v => v
  | RetVal.promise v => v

/-- An entry of the child's model object: a plain value, a promise stored
directly, or a zero-argument callable (the call argument, if any, is
ignored by the functions the protocol resolves). -/
inductive ModelEntry where
  | plain : Val → ModelEntry
  | promiseOf : Val → ModelEntry
  | callable : RetVal → ModelEntry
  deriving DecidableEq, Repr

/-- Direct translation of `resolveValue(model, property)`: invoke the
entry if callable, else use it as-is, then normalize through
`Promise.resolve`; the result is the value the returned promise resolves
with (`undefined` when the property is absent). -/
def resolveValue (model : Obj ModelEntry) (property : String) : Val :=
  match objGet model property with
  | some (ModelEntry.callable r) => retVal r
  | some (ModelEntry.plain v) => v
  | some (ModelEntry.promiseOf v) => v
  | none => Val.undef

/-- Observable actions of the child-side message listener: invoking a
model function, or posting an envelope via `e.source.postMessage(data,
origin)`. -/
inductive ChildEffect where
  | invoke : String → Val → ChildEffect
  | post : String → String → MsgData → ChildEffect
  deriving DecidableEq, Repr

/-- The reply envelope the child dispatcher posts back:
`\x7b property, postmate: 'reply', type: messageType, uid, value \x7d`. -/
def replyEnvelope (property : Option String) (uid : Option Nat) (value : Val) : MsgData :=
  { postmate := some "reply", type := some messageType,
    property := property, uid := uid, value := some value }

/-- Direct translation of the `ChildAPI` constructor's message listener:
sanitize against the parent origin, destructure `property`, `uid`, `data`
from the payload, handle `call` (invoke if the looked-up entry is a
function, never reply), otherwise reply with the resolved value to
`e.source` at `e.origin`.  Note the destructured field is `property`,
not `key`. -/
def childDispatch (parentOrigin : String) (model : Obj ModelEntry)
    (e : MessageEvent) : List ChildEffect :=
  if !sanitize e (some parentOrigin) then []
  else
    match e.data with
    | some (Payload.obj d) =>
        if d.postmate == some "call" then
          match objGet model (jsKeyOpt d.property) with
          | some (ModelEntry.callable _) =>
              [ChildEffect.invoke (jsKeyOpt d.property) (d.data.getD Val.undef)]
          | _ => []
        else
          [ChildEffect.post e.source e.origin
            (replyEnvelope d.property d.uid
              (resolveValue model (jsKeyOpt d.property)))]
    | _ => []

/-- Observable action of the parent-side emit listener: invoking a
registered event callback (identified by a numeric id) with the emitted
data. -/
inductive HostEffect where
  | invokeCallback : Nat → Val → HostEffect
  deriving DecidableEq, Repr

/-- Direct translation of the `ParentAPI` constructor's `this.listener`:
sanitize against the pinned child origin, destructure `\x7bdata, name\x7d`
from `e.data.value`, and on an `emit` envelope invoke every callback
registered under `name` (in registration order). -/
def parentListener (childOrigin : String) (events : Obj (List Nat))
    (e : MessageEvent) : List HostEffect :=
  if !sanitize e (some childOrigin) then []
  else
    let v := payloadValue e.data
    if payloadPostmate e.data == some "emit" then
      match objGet events (jsKey (valueName v)) with
      | some cbs => cbs.map (fun c => HostEffect.invokeCallback c (valueData v))
      | none => []
    else []

/-- The request envelope `ParentAPI.get` posts:
`\x7b postmate: 'request', type: messageType, key, uid \x7d` — the looked-up
name travels in the `key` field. -/
def requestEnvelope (key : String) (uid : Nat) : MsgData :=
  { postmate := some "request", type := some messageType,
    key := some key, uid := some uid }

/-- The envelope `ParentAPI.call` posts:
`\x7b postmate: 'call', type: messageType, key, data \x7d`. -/
def callEnvelope (key : String) (data : Option Val) : MsgData :=
  { postmate := some "call", type := some messageType,
    key := some key, data := data }

/-- Direct translation of the `transact` listener registered by
`ParentAPI.get`: it fires on any event whose payload carries the matching
`uid` and kind `reply` — it performs no `sanitize` call and no origin
check — and then removes itself and resolves the promise with
`e.data.value`.  Result: `some v` when the event matches (the promise
resolves with `v` and the listener is removed), `none` otherwise. -/
def transactStep (uid : Nat) (e : MessageEvent) : Option Val :=
  match e.data with
  | some (Payload.obj d) =>
      if d.uid == some uid && d.postmate == some "reply" then
        some (d.value.getD Val.undef)
      else none
  | _ => none

/-- One full `get` round trip as wired in the source: the parent posts a
request envelope carrying the name under `key`; the child dispatcher
(sanitizing against the parent's origin) handles it and posts back a
reply; the parent's `transact` listener processes that reply.  The result
is the value the `get` promise resolves with (`none` if no resolution
happens). -/
def getRoundTrip (parentOrigin childOrigin : String) (model : Obj ModelEntry)
    (key : String) (uid : Nat) : Option Val :=
  let request : MessageEvent :=
    { origin := parentOrigin, source := "parent",
      data := some (Payload.obj (requestEnvelope key uid)) }
  match childDispatch parentOrigin model request with
  | [ChildEffect.post _ _ reply] =>
      transactStep uid
        { origin := childOrigin, source := "child",
          data := some (Payload.obj reply) }
  | _ => none

example :
    getRoundTrip "https://parent.example" "https://child.example"
      [("x", ModelEntry.plain (Val.vnat 42))] "x" 1 = some Val.undef := by decide

/-- Settlement of a promise: `resolved o` models `resolve(new ...API(this))`
after origin `o` was pinned; `rejected msg` models `reject(msg)`. -/
inductive Settled where
  | resolved : String → Settled
  | rejected : String → Settled
  deriving DecidableEq, Repr

/-- A promise settles at most once: a later resolve/reject on an already
settled promise has no effect. -/
def settle (old : Option Settled) (s : Settled) : Option Settled :=
  match old with
  | some x => some x
  | none => some s

/-- State of `Postmate.sendHandshake`: the `attempt` counter, whether the
`setInterval` retry timer is live (`clearInterval` clears it), whether the
`reply` listener is still registered, `this.childOrigin` once assigned,
and the settlement of the returned promise. -/
structure InitiatorState where
  attempt : Nat
  timerActive : Bool
  listenerActive : Bool
  childOrigin : Option String
  settled : Option Settled
  deriving DecidableEq, Repr

/-- The state before the frame loads: zero attempts, no timer yet, the
reply listener registered, no pinned origin, promise pending. -/
def initState : InitiatorState :=
  { attempt := 0, timerActive := false, listenerActive := true,
    childOrigin := none, settled := none }

/-- One handshake send event, tagged with the attempt number it was sent
as (the posted envelope is the constant handshake envelope carrying the
host model, posted to the precomputed child origin). -/
inductive HSEvent where
  | sent : Nat → HSEvent
  deriving DecidableEq, Repr

/-- Direct translation of `doSend`: increment the attempt counter; past
the maximum, clear the retry timer and reject with the timeout error;
otherwise post the handshake envelope (recorded as a `sent` event). -/
def doSend (s : InitiatorState) : InitiatorState × List HSEvent :=
  if s.attempt + 1 > maxHandshakeRequests then
    ({ s with attempt := s.attempt + 1, timerActive := false,
              settled := settle s.settled (Settled.rejected "Handshake Timeout Reached") }, [])
  else
    ({ s with attempt := s.attempt + 1 }, [HSEvent.sent (s.attempt + 1)])

/-- Direct translation of the handshake `reply` listener: once removed it
no longer fires; an event failing `sanitize` against the precomputed
child origin is ignored (`return false`); a `handshake-reply` clears the
timer, removes the listener, pins `e.origin` as `this.childOrigin` and
resolves; any other sanitized envelope rejects with "Failed handshake"
(leaving timer and listener in place). -/
def replyHandler (childOrigin : String) (s : InitiatorState)
    (e : MessageEvent) : InitiatorState :=
  if !s.listenerActive then s
  else if !sanitize e (some childOrigin) then s
  else if payloadPostmate e.data == some "handshake-reply" then
    { s with timerActive := false, listenerActive := false,
             childOrigin := some e.origin,
             settled := settle s.settled (Settled.resolved e.origin) }
  else
    { s with settled := settle s.settled (Settled.rejected "Failed handshake") }

/-- The timed run of the retry loop with no inbound messages: entry `0`
is the frame `load` callback (`doSend()` then `setInterval(doSend, 500)`),
and entry `n + 1` is the timer tick at time `500 * (n + 1)`, firing
`doSend` only while the interval is live.  Returns the state and the
trace of sends, each tagged with its send time. -/
def runTicks : Nat → InitiatorState × List (Nat × HSEvent)
  | 0 =>
      let p := doSend initState
      ({ p.1 with timerActive := true }, p.2.map (fun ev => (0, ev)))
  | n + 1 =>
      let p := runTicks n
      if p.1.timerActive then
        let q := doSend p.1
        (q.1, p.2 ++ q.2.map (fun ev => (500 * (n + 1), ev)))
      else p

/-- Untimed continuation of the timer from an arbitrary state: `m` further
ticks, each firing `doSend` only while the interval is live. -/
def tickFrom (s : InitiatorState) : Nat → InitiatorState × List HSEvent
  | 0 => (s, [])
  | n + 1 =>
      let p := tickFrom s n
      if p.1.timerActive then
        let q := doSend p.1
        (q.1, p.2 ++ q.2)
      else p

/-- State of `Postmate.Model.sendHandshakeReply`: whether the `shake`
listener is still registered, the child model, the pinned parent origin,
and the settlement of the returned promise. -/
structure ResponderState where
  listenerActive : Bool
  model : Obj ModelEntry
  parentOrigin : Option String
  settled : Option Settled
  deriving DecidableEq, Repr

/-- The envelope the child posts back on handshake:
`\x7b postmate: 'handshake-reply', type: messageType \x7d`. -/
def handshakeReplyEnvelope : MsgData :=
  { postmate := some "handshake-reply", type := some messageType }

/-- Truthiness of `e.data.postmate` as tested by the `shake` listener
(`if (!e.data.postmate) return;`): a present non-empty string.  (On an
absent payload the JS read would throw, but `postMessage` events always
carry a payload.) -/
def postmateTruthy : Option Payload → Bool
  | some (Payload.obj d) =>
      match d.postmate with
      | some s => s != ""
      | none => false
  | _ => false

/-- Direct translation of the model merge in the `shake` listener:
`Object.keys(defaults).forEach(key => this.model[key] = defaults[key])` —
each host default is written into the child model (overwriting in place
or appending), wrapped as a plain value since it crossed the channel. -/
def mergeDefaults (model : Obj ModelEntry) (defaults : Obj Val) : Obj ModelEntry :=
  List.foldl (fun m kv => objSet m kv.1 (ModelEntry.plain kv.2)) model defaults

/-- Direct translation of the `shake` listener: it performs no `sanitize`
call; an envelope whose `postmate` field is falsy is ignored; a
`handshake` envelope removes the listener (single-shot), posts the
handshake reply to `e.source` at `e.origin`, pins `e.origin` as the
parent origin, merges the host-supplied model defaults if present, and
resolves; any other truthy discriminant rejects with
"Handshake Reply Failed". -/
def shakeStep (s : ResponderState) (e : MessageEvent) :
    ResponderState × List ChildEffect :=
  if !s.listenerActive then (s, [])
  else if !postmateTruthy e.data then (s, [])
  else if payloadPostmate e.data == some "handshake" then
    ({ s with listenerActive := false,
              parentOrigin := some e.origin,
              model := match payloadModel e.data with
                       | some defaults => mergeDefaults s.model defaults
                       | none => s.model,
              settled := settle s.settled (Settled.resolved e.origin) },
     [ChildEffect.post e.source e.origin handshakeReplyEnvelope])
  else
    ({ s with settled := settle s.settled (Settled.rejected "Handshake Reply Failed") }, [])

/-- A pending `get` on the host side: the correlation id of its `transact`
listener and, once that listener matched a reply and removed itself, the
value the promise resolved with. -/
structure PendingGet where
  uid : Nat
  resolved : Option Val
  deriving DecidableEq, Repr

/-- Host-side listener state after the handshake: whether `this.listener`
(the emit listener) is still on the window, and the `transact` listeners
of the outstanding `get` calls. -/
structure HostState where
  listenerActive : Bool
  pending : List PendingGet
  deriving DecidableEq, Repr

/-- Delivery of one message event to the host window: the emit listener
runs if still registered, and every still-pending `transact` listener
tests the event independently (resolving and removing itself on a
match). -/
def hostDeliver (childOrigin : String) (events : Obj (List Nat))
    (s : HostState) (e : MessageEvent) : HostState × List HostEffect :=
  ({ s with pending := s.pending.map (fun p =>
        if p.resolved.isSome then p
        else match transactStep p.uid e with
             | some v => { p with resolved := some v }
             | none => p) },
   if s.listenerActive then parentListener childOrigin events e else [])

/-- Direct translation of `ParentAPI.destroy`: it removes `this.listener`
(the emit listener) from the window — and nothing else; the `transact`
listeners registered by unresolved `get` calls are not removed.  (The
frame detach it also performs is outside the message model.) -/
def hostDestroy (s : HostState) : HostState :=
  { s with listenerActive := false }

/-- Rejection condition (a) of the claim: an expected origin is specified
and the sender's origin differs (exact string comparison). -/
def condOriginMismatch (m : MessageEvent) : Option String → Bool
  | some s => m.origin != s
  | none => false

/-- Rejection condition (b) of the claim: the payload is absent. -/
def condPayloadAbsent (m : MessageEvent) : Bool := m.data.isNone

/-- Rejection condition (c) of the claim: the payload is a structured
object lacking the protocol discriminant field. -/
def condLacksDiscriminant (m : MessageEvent) : Bool :=
  payloadIsObject m.data && !payloadHasPostmate m.data

/-- Rejection condition (d) of the claim: the type marker does not equal
the protocol constant. -/
def condWrongTypeMarker (m : MessageEvent) : Bool :=
  payloadType m.data != some messageType

/-- Rejection condition (e) as the claim words it: the kind is not one
of the six recognized values.  (Stated from the claim's words, to be
compared with the source's actual gate `condKindLookupFalsy`.) -/
def condUnrecognizedKind (m : MessageEvent) : Bool :=
  !(match payloadPostmate m.data with
    | some s => recognizedKinds.contains s
    | none => false)

/-- The rejection condition the source actually applies at the fifth
gate: `messageTypes[message.data.postmate]` is falsy — the kind is
neither one of the six own keys nor an inherited `Object.prototype`
member name. -/
def condKindLookupFalsy (m : MessageEvent) : Bool :=
  !messageTypesLookup (payloadPostmate m.data)

/-- Gate-by-gate reading of the `sanitize` if-chain. -/
theorem sanitize_true_iff (m : MessageEvent) (o : Option String) :
    sanitize m o = true ↔
      condOriginMismatch m o = false ∧ payloadTruthy m.data = true ∧
      condLacksDiscriminant m = false ∧ condWrongTypeMarker m = false ∧
      condKindLookupFalsy m = false := by
  have ho : (match o with
      | some o' => m.origin != o'
      | none => false) = condOriginMismatch m o := by
    cases o <;> rfl
  cases h1 : condOriginMismatch m o <;>
    cases h2 : payloadTruthy m.data <;>
    cases hio : payloadIsObject m.data <;>
    cases hhp : payloadHasPostmate m.data <;>
    cases h4 : condWrongTypeMarker m <;>
    cases h5 : condKindLookupFalsy m <;>
    simp_all [sanitize, condLacksDiscriminant, condWrongTypeMarker,
      condKindLookupFalsy]

/-- When the type marker matches the protocol constant the payload is an
envelope-shaped object, so JavaScript truthiness of the payload coincides
with the payload being present. -/
theorem payloadTruthy_of_type_ok (m : MessageEvent)
    (h : condWrongTypeMarker m = false) : payloadTruthy m.data = true := by
  cases hm : m.data with
  | none => simp [condWrongTypeMarker, payloadType, hm] at h
  | some p =>
      cases p with
      | prim v => simp [condWrongTypeMarker, payloadType, hm] at h
      | obj d => simp [payloadTruthy, hm]

/-- An envelope whose kind is "toString" — not one of the six recognized
kinds, but the name of an inherited `Object.prototype` member — with a
matching origin and the correct type marker. -/
def protoKindEvent : MessageEvent :=
  { origin := "https://child.example", source := "child",
    data := some (Payload.obj
      { postmate := some "toString", type := some messageType }) }

/-- C5 counterexample: `sanitize` accepts an envelope whose kind is
"toString" from a matching origin with the correct type marker, because
the object-literal lookup `messageTypes[k]` is truthy for inherited
`Object.prototype` member names; yet rejection condition (e) of the
claim — the kind is not one of the six recognized values — holds for
this envelope, refuting the claimed equivalence in its only-if
direction. -/
theorem c5_counterexample :
    sanitize protoKindEvent (some "https://child.example") = true ∧
    condUnrecognizedKind protoKindEvent = true := by decide

/-- C5 (amended): `sanitize(message, allowedOrigin)` returns true if and
only if none of these rejection conditions hold — (a) specified origin
mismatch, (b) absent payload, (c) structured payload lacking the
discriminant, (d) wrong type marker, (e') the kind is falsy under the
`messageTypes` object lookup, i.e. it is neither one of the six
recognized values nor the name of an inherited `Object.prototype`
member — and it is a pure predicate (a Lean function, with no effects by
construction).  The claim's two corollaries stand unweakened: every
envelope lacking the discriminant is rejected regardless of origin, and
every origin mismatch is rejected even on an otherwise well-formed
payload. -/
theorem c5_sanitize_characterization (m : MessageEvent) (o : Option String) :
    (sanitize m o = true ↔
        condOriginMismatch m o = false ∧ condPayloadAbsent m = false ∧
        condLacksDiscriminant m = false ∧ condWrongTypeMarker m = false ∧
        condKindLookupFalsy m = false)
    ∧ (payloadHasPostmate m.data = false → ∀ o2, sanitize m o2 = false)
    ∧ (∀ s, m.origin ≠ s → sanitize m (some s) = false) := by
  refine ⟨?_, ?_, ?_⟩
  · rw [sanitize_true_iff]
    constructor
    · rintro ⟨ha, ht, hc, hd, he⟩
      refine ⟨ha, ?_, hc, hd, he⟩
      cases hm : m.data with
      | none => rw [hm] at ht; simp [payloadTruthy] at ht
      | some p => simp [condPayloadAbsent, hm]
    · rintro ⟨ha, _, hc, hd, he⟩
      exact ⟨ha, payloadTruthy_of_type_ok m hd, hc, hd, he⟩
  · intro hnp o2
    cases hs : sanitize m o2 with
    | false => rfl
    | true =>
      exfalso
      obtain ⟨-, ht, hc, hd, -⟩ := (sanitize_true_iff m o2).mp hs
      cases hm : m.data with
      | none => rw [hm] at ht; simp [payloadTruthy] at ht
      | some p =>
        cases p with
        | prim v =>
            rw [condWrongTypeMarker, hm] at hd
            simp [payloadType] at hd
        | obj d =>
            rw [hm] at hnp
            rw [condLacksDiscriminant, hm] at hc
            simp [payloadIsObject, hnp] at hc
  · intro s hne
    cases hs : sanitize m (some s) with
    | false => rfl
    | true =>
      exfalso
      have h := ((sanitize_true_iff m (some s)).mp hs).1
      rw [condOriginMismatch] at h
      simp at h
      exact hne h

/-- A well-formed reply envelope event sent from the trusted child
origin, used as a concrete input for the sanitize claims. -/
def goodReplyEvent : MessageEvent :=
  { origin := "https://child.example", source := "child",
    data := some (Payload.obj
      { postmate := some "reply", type := some messageType }) }

/-- Witness for the sanitize characterization at a concrete input:
the well-formed reply passes against its own origin and is rejected
against a different expected origin. -/
theorem c5_sanitize_characterization_witness :
    sanitize goodReplyEvent (some "https://child.example") = true ∧
    sanitize goodReplyEvent (some "https://other.example") = false :=
  ⟨(c5_sanitize_characterization goodReplyEvent
      (some "https://child.example")).1.mpr (by decide),
   (c5_sanitize_characterization goodReplyEvent
      (some "https://other.example")).2.2 "https://other.example" (by decide)⟩

/-- The trusted child origin used by the concrete scenarios. -/
def trustedChildOrigin : String := "https://child.example"

/-- A reply envelope forged by a sender at an untrusted origin: it fails
`sanitize` against the trusted child origin, yet carries a matching `uid`
and kind `reply`. -/
def forgedReply : MessageEvent :=
  { origin := "https://evil.example", source := "attacker",
    data := some (Payload.obj
      { postmate := some "reply", type := some messageType,
        uid := some 1, value := some (Val.vnat 99) }) }

/-- The responder state at child startup: the `shake` listener registered,
an empty model, no pinned parent origin, promise pending. -/
def initResponder : ResponderState :=
  { listenerActive := true, model := [], parentOrigin := none, settled := none }

/-- A handshake envelope lacking the protocol type marker (so it fails
`sanitize` against every expected origin), sent from an untrusted
origin. -/
def forgedShake : MessageEvent :=
  { origin := "https://evil.example", source := "attacker",
    data := some (Payload.obj { postmate := some "handshake" }) }

/-- C2 counterexample: two of the four listeners act on envelopes that
Sanitizer rejects.  The forged reply fails `sanitize` against the trusted
child origin, yet the `transact` listener of a pending `get` with uid 1
resolves the promise with its value 99; and the forged handshake fails
`sanitize` against every origin, yet the child's `shake` responder
resolves the session, pinning the attacker origin. -/
theorem c2_counterexample :
    sanitize forgedReply (some trustedChildOrigin) = false ∧
    transactStep 1 forgedReply = some (Val.vnat 99) ∧
    sanitize forgedShake (some trustedChildOrigin) = false ∧
    (shakeStep initResponder forgedShake).1.settled
      = some (Settled.resolved "https://evil.example") := by decide

/-- C2 (amended): the host's emit listener, the child's post-handshake
dispatcher, and the host's handshake reply listener act only on envelopes
passing Sanitizer; but the `transact` listener registered by `get` acts
purely on the `uid` and kind fields — independent of the sender origin
and of Sanitizer — and the child's handshake responder checks only that
the discriminant field is truthy. -/
theorem c2_sanitizer_gates (co po : String) (events : Obj (List Nat))
    (model : Obj ModelEntry) (s : InitiatorState) (e : MessageEvent)
    (h1 : sanitize e (some co) = false) (h2 : sanitize e (some po) = false) :
    parentListener co events e = [] ∧
    childDispatch po model e = [] ∧
    replyHandler co s e = s ∧
    (∀ uid o2, transactStep uid { e with origin := o2 } = transactStep uid e) := by
  refine ⟨?_, ?_, ?_, ?_⟩
  · simp [parentListener, h1]
  · simp [childDispatch, h2]
  · cases hl : s.listenerActive <;> simp [replyHandler, h1, hl]
  · intro uid o2
    obtain ⟨eo, es, ed⟩ := e
    cases ed with
    | none => rfl
    | some p => cases p <;> rfl

/-- Witness for the sanitizer gates at a concrete unsanitized input. -/
theorem c2_sanitizer_gates_witness :
    parentListener trustedChildOrigin [] forgedReply = [] ∧
    childDispatch trustedChildOrigin [] forgedReply = [] ∧
    replyHandler trustedChildOrigin initState forgedReply = initState ∧
    (∀ uid o2, transactStep uid { forgedReply with origin := o2 }
       = transactStep uid forgedReply) :=
  c2_sanitizer_gates trustedChildOrigin trustedChildOrigin [] [] initState
    forgedReply (by decide) (by decide)

/-- A well-formed handshake-reply envelope arriving from an origin other
than the precomputed child origin: Sanitizer rejects it. -/
def forgedHandshakeReply : MessageEvent :=
  { origin := "https://evil.example", source := "attacker",
    data := some (Payload.obj
      { postmate := some "handshake-reply", type := some messageType }) }

/-- C7 counterexample: during the handshake (state after the first send),
an inbound envelope failing Sanitizer is silently dropped — the state is
unchanged and the session promise is NOT rejected with "Failed handshake"
— contradicting the claim that such envelopes are treated as handshake
failure. -/
theorem c7_counterexample :
    sanitize forgedHandshakeReply (some trustedChildOrigin) = false ∧
    replyHandler trustedChildOrigin (runTicks 0).1 forgedHandshakeReply
      = (runTicks 0).1 ∧
    ((runTicks 0).1).settled = none := by decide

/-- C7 (amended): during the handshake, an inbound envelope that fails
Sanitizer against the precomputed target origin is silently ignored (no
state change, no rejection); an envelope that passes Sanitizer but is not
a HandshakeReply rejects the session promise with "Failed handshake". -/
theorem c7_handshake_listener_behavior (co : String) (s : InitiatorState)
    (e : MessageEvent) (hl : s.listenerActive = true) :
    (sanitize e (some co) = false → replyHandler co s e = s) ∧
    (sanitize e (some co) = true →
      payloadPostmate e.data ≠ some "handshake-reply" →
      replyHandler co s e
        = { s with settled := settle s.settled (Settled.rejected "Failed handshake") }) := by
  constructor
  · intro h
    simp [replyHandler, hl, h]
  · intro h hk
    have hk2 : (payloadPostmate e.data == some "handshake-reply") = false := by
      simp [hk]
    simp [replyHandler, hl, h, hk2]

/-- A sanitized but non-handshake-reply envelope from the trusted child
origin, as may arrive during the handshake. -/
def strayRequest : MessageEvent :=
  { origin := trustedChildOrigin, source := "child",
    data := some (Payload.obj
      { postmate := some "request", type := some messageType }) }

/-- Witness for the handshake listener behavior at concrete inputs. -/
theorem c7_handshake_listener_behavior_witness :
    replyHandler trustedChildOrigin initState forgedHandshakeReply = initState ∧
    replyHandler trustedChildOrigin initState strayRequest
      = { initState with settled := some (Settled.rejected "Failed handshake") } :=
  ⟨(c7_handshake_listener_behavior trustedChildOrigin initState
      forgedHandshakeReply rfl).1 (by decide),
   (c7_handshake_listener_behavior trustedChildOrigin initState
      strayRequest rfl).2 (by decide) (by decide)⟩

/-- C1 (failing-input evaluation): with the child model holding `x = 42`
(as a plain value, and likewise as a zero-argument function returning
42), the full `get("x")` round trip resolves the promise with `undefined`
— not 42.  The parent sends the looked-up name in the `key` field, but
the child dispatcher destructures `property`, so it resolves the model at
the key "undefined" and replies `undefined`.  The third conjunct shows
the same dispatcher replying 42 when the name is instead carried in the
`property` field, pinning the divergence to the field-name mismatch. -/
theorem c1_get_key_property_mismatch :
    getRoundTrip "https://parent.example" "https://child.example"
      [("x", ModelEntry.plain (Val.vnat 42))] "x" 1 = some Val.undef ∧
    getRoundTrip "https://parent.example" "https://child.example"
      [("x", ModelEntry.callable (RetVal.promise (Val.vnat 42)))] "x" 2
      = some Val.undef ∧
    childDispatch "https://parent.example"
      [("x", ModelEntry.plain (Val.vnat 42))]
      { origin := "https://parent.example", source := "parent",
        data := some (Payload.obj
          { postmate := some "request", type := some messageType,
            property := some "x", uid := some 1 }) }
      = [ChildEffect.post "parent" "https://parent.example"
          (replyEnvelope (some "x") (some 1) (Val.vnat 42))] := by decide

/-- C6 (failing-input evaluation): a sanitized `Call` envelope as the
host's `call("fn", 7)` actually sends it (name in the `key` field)
produces no effect at all on a child model whose entry `fn` is callable —
the function is never invoked, because the dispatcher destructures
`property`.  The second conjunct shows the dispatcher invoking `fn` with
7 when the name is instead carried in the `property` field; the third
shows the silent no-op on a missing entry. -/
theorem c6_call_key_property_mismatch :
    childDispatch "https://parent.example"
      [("fn", ModelEntry.callable (RetVal.val Val.undef))]
      { origin := "https://parent.example", source := "parent",
        data := some (Payload.obj (callEnvelope "fn" (some (Val.vnat 7)))) }
      = [] ∧
    childDispatch "https://parent.example"
      [("fn", ModelEntry.callable (RetVal.val Val.undef))]
      { origin := "https://parent.example", source := "parent",
        data := some (Payload.obj
          { postmate := some "call", type := some messageType,
            property := some "fn", data := some (Val.vnat 7) }) }
      = [ChildEffect.invoke "fn" (Val.vnat 7)] ∧
    childDispatch "https://parent.example" []
      { origin := "https://parent.example", source := "parent",
        data := some (Payload.obj
          { postmate := some "call", type := some messageType,
            property := some "fn", data := some (Val.vnat 7) }) }
      = [] := by decide

/-- C10: every sanitized inbound envelope whose kind is not `call` — in
particular the kinds emit, reply, handshake and handshake-reply, not only
request — makes the child dispatcher resolve a model lookup and post a
`Reply` envelope echoing the incoming `uid`, to the envelope's reported
sender (`e.source`) at the envelope's reported origin (`e.origin`); only
the `call` kind is exempt. -/
theorem c10_child_replies_to_all_noncall_kinds (po : String)
    (model : Obj ModelEntry) (e : MessageEvent) (d : MsgData)
    (hd : e.data = some (Payload.obj d))
    (hs : sanitize e (some po) = true)
    (hk : d.postmate ≠ some "call") :
    childDispatch po model e =
      [ChildEffect.post e.source e.origin
        (replyEnvelope d.property d.uid
          (resolveValue model (jsKeyOpt d.property)))] := by
  have hk2 : (d.postmate == some "call") = false := by simp [hk]
  simp [childDispatch, hs, hd, hk2]

/-- A sanitized emit-kind envelope sent to the child dispatcher. -/
def strayEmit : MessageEvent :=
  { origin := "https://parent.example", source := "parent",
    data := some (Payload.obj
      { postmate := some "emit", type := some messageType, uid := some 3 }) }

/-- Witness: the child dispatcher replies even to an `emit`-kind envelope,
echoing its uid to its reported sender and origin. -/
theorem c10_child_replies_to_all_noncall_kinds_witness :
    childDispatch "https://parent.example"
      [("x", ModelEntry.plain (Val.vnat 42))] strayEmit
      = [ChildEffect.post "parent" "https://parent.example"
          (replyEnvelope none (some 3) Val.undef)] :=
  c10_child_replies_to_all_noncall_kinds "https://parent.example"
    [("x", ModelEntry.plain (Val.vnat 42))] strayEmit
    { postmate := some "emit", type := some messageType, uid := some 3 }
    rfl (by decide) (by decide)

/-- While the retry timer is cleared, further ticks fire nothing and
leave the state unchanged. -/
theorem tickFrom_inactive (s : InitiatorState) (h : s.timerActive = false) :
    ∀ m, tickFrom s m = (s, []) := by
  intro m
  induction m with
  | zero => rfl
  | succ n ih => simp [tickFrom, ih, h]

/-- C3: with no valid HandshakeReply ever arriving, the initiator sends
exactly 5 Handshake envelopes, at times 0, 500, 1000, 1500 and 2000 (500
time-units apart), and on the following tick rejects the session promise
with "Handshake Timeout Reached" while clearing the retry timer; the
trace is the same for every later tick count, so no sends occur after the
timeout transition, and the promise is still pending right after the
fifth send. -/
theorem c3_handshake_timeout (n : Nat) (h : 5 ≤ n) :
    (runTicks n).2 = [(0, HSEvent.sent 1), (500, HSEvent.sent 2),
      (1000, HSEvent.sent 3), (1500, HSEvent.sent 4), (2000, HSEvent.sent 5)] ∧
    (runTicks n).1.settled = some (Settled.rejected "Handshake Timeout Reached") ∧
    (runTicks n).1.timerActive = false ∧
    (runTicks 4).1.settled = none := by
  have main : ∀ m, 5 ≤ m → runTicks m =
      ({ attempt := 6, timerActive := false, listenerActive := true,
         childOrigin := none,
         settled := some (Settled.rejected "Handshake Timeout Reached") },
       [(0, HSEvent.sent 1), (500, HSEvent.sent 2), (1000, HSEvent.sent 3),
        (1500, HSEvent.sent 4), (2000, HSEvent.sent 5)]) := by
    intro m hm
    induction hm with
    | refl => decide
    | step _ ih =>
        simp only [runTicks, ih]
        rfl
  rw [main n h]
  refine ⟨rfl, rfl, rfl, by decide⟩

/-- Witness for the timeout run at the concrete tick count 7. -/
theorem c3_handshake_timeout_witness :
    (runTicks 7).2 = [(0, HSEvent.sent 1), (500, HSEvent.sent 2),
      (1000, HSEvent.sent 3), (1500, HSEvent.sent 4), (2000, HSEvent.sent 5)] ∧
    (runTicks 7).1.settled = some (Settled.rejected "Handshake Timeout Reached") ∧
    (runTicks 7).1.timerActive = false ∧
    (runTicks 4).1.settled = none :=
  c3_handshake_timeout 7 (by decide)

/-- C4: when a valid HandshakeReply (passing Sanitizer against the
precomputed origin) arrives after attempt k with k ≤ 5, the initiator
has sent exactly k envelopes so far, and handling the reply clears the
retry timer, removes the handshake listener, pins the reply envelope's
actual reply-time origin as the session's trusted child origin, and
resolves the session promise; afterwards no tick ever sends again and no
further event changes the state, so the resolution is terminal and
happens exactly once. -/
theorem c4_handshake_success (co : String) (k : Nat) (hk1 : 1 ≤ k)
    (hk5 : k ≤ 5) (e : MessageEvent)
    (hs : sanitize e (some co) = true)
    (hkind : payloadPostmate e.data = some "handshake-reply") :
    (runTicks (k - 1)).2.length = k ∧
    (replyHandler co (runTicks (k - 1)).1 e).timerActive = false ∧
    (replyHandler co (runTicks (k - 1)).1 e).listenerActive = false ∧
    (replyHandler co (runTicks (k - 1)).1 e).childOrigin = some e.origin ∧
    (replyHandler co (runTicks (k - 1)).1 e).settled
      = some (Settled.resolved e.origin) ∧
    (∀ m, tickFrom (replyHandler co (runTicks (k - 1)).1 e) m
       = (replyHandler co (runTicks (k - 1)).1 e, [])) ∧
    (∀ co2 e2, replyHandler co2 (replyHandler co (runTicks (k - 1)).1 e) e2
       = replyHandler co (runTicks (k - 1)).1 e) := by
  have hstate : (runTicks (k - 1)).1
      = { attempt := k, timerActive := true, listenerActive := true,
          childOrigin := none, settled := none } := by
    interval_cases k <;> decide
  have hlen : (runTicks (k - 1)).2.length = k := by
    interval_cases k <;> decide
  have hstep : replyHandler co
      { attempt := k, timerActive := true, listenerActive := true,
        childOrigin := none, settled := none } e
      = { attempt := k, timerActive := false, listenerActive := false,
          childOrigin := some e.origin,
          settled := some (Settled.resolved e.origin) } := by
    simp [replyHandler, hs, hkind, settle]
  rw [hstate, hstep]
  refine ⟨hlen, rfl, rfl, rfl, rfl, ?_, ?_⟩
  · exact tickFrom_inactive _ rfl
  · intro co2 e2
    rfl

/-- The well-formed handshake reply the child actually posts, arriving
from the trusted child origin. -/
def validHandshakeReply : MessageEvent :=
  { origin := trustedChildOrigin, source := "child",
    data := some (Payload.obj handshakeReplyEnvelope) }

/-- Witness for the success transition after attempt 2. -/
theorem c4_handshake_success_witness :
    (runTicks 1).2.length = 2 ∧
    (replyHandler trustedChildOrigin (runTicks 1).1 validHandshakeReply).settled
      = some (Settled.resolved trustedChildOrigin) ∧
    (∀ m, tickFrom (replyHandler trustedChildOrigin (runTicks 1).1 validHandshakeReply) m
       = (replyHandler trustedChildOrigin (runTicks 1).1 validHandshakeReply, [])) := by
  have h := c4_handshake_success trustedChildOrigin 2 (by decide) (by decide)
    validHandshakeReply (by decide) (by decide)
  exact ⟨h.1, h.2.2.2.2.1, h.2.2.2.2.2.1⟩

/-- Reading back a property write: the written key now maps to the new
value and every other key is unchanged. -/
theorem objGet_objSet {α : Type} (m : Obj α) (k k' : String) (v : α) :
    objGet (objSet m k v) k' = if k = k' then some v else objGet m k' := by
  induction m with
  | nil => by_cases h : k = k' <;> simp [objSet, objGet, h]
  | cons p rest ih =>
      obtain ⟨k0, w⟩ := p
      by_cases h0 : k0 = k <;> by_cases h1 : k = k' <;>
        simp_all [objSet, objGet]

/-- A key not among an object's keys reads as absent. -/
theorem objGet_eq_none_of_not_mem {α : Type} (m : Obj α) (k : String)
    (h : k ∉ m.map Prod.fst) : objGet m k = none := by
  induction m with
  | nil => rfl
  | cons p rest ih =>
      obtain ⟨k0, w⟩ := p
      simp only [List.map_cons, List.mem_cons, not_or] at h
      rw [objGet, if_neg (fun hh => h.1 hh.symm)]
      exact ih h.2

/-- Merging host defaults leaves every key not present in the defaults
unchanged. -/
theorem mergeDefaults_not_in (model : Obj ModelEntry) (defaults : Obj Val)
    (k : String) (h : objGet defaults k = none) :
    objGet (mergeDefaults model defaults) k = objGet model k := by
  induction defaults generalizing model with
  | nil => rfl
  | cons p rest ih =>
      obtain ⟨k0, v0⟩ := p
      have h0 : ¬ k0 = k := by
        intro hk
        rw [objGet, if_pos hk] at h
        exact Option.noConfusion h
      have h1 : objGet rest k = none := by
        rw [objGet, if_neg h0] at h
        exact h
      show objGet (mergeDefaults (objSet model k0 (ModelEntry.plain v0)) rest) k
          = objGet model k
      rw [ih _ h1, objGet_objSet, if_neg h0]

/-- Merging host defaults with distinct keys makes every key present in
the defaults read as the host's value. -/
theorem mergeDefaults_in (model : Obj ModelEntry) (defaults : Obj Val)
    (k : String) (v : Val)
    (hnd : (defaults.map Prod.fst).Nodup)
    (h : objGet defaults k = some v) :
    objGet (mergeDefaults model defaults) k = some (ModelEntry.plain v) := by
  induction defaults generalizing model with
  | nil => exact Option.noConfusion h
  | cons p rest ih =>
      obtain ⟨k0, v0⟩ := p
      rw [List.map_cons, List.nodup_cons] at hnd
      by_cases h0 : k0 = k
      · subst h0
        rw [objGet, if_pos rfl] at h
        have hv : v0 = v := Option.some.injEq .. ▸ h
        have hk0 : objGet rest k0 = none :=
          objGet_eq_none_of_not_mem rest k0 hnd.1
        show objGet (mergeDefaults (objSet model k0 (ModelEntry.plain v0)) rest) k0
            = some (ModelEntry.plain v)
        rw [mergeDefaults_not_in _ _ _ hk0, objGet_objSet, if_pos rfl, hv]
      · have h1 : objGet rest k = some v := by
          rw [objGet, if_neg h0] at h
          exact h
        show objGet (mergeDefaults (objSet model k0 (ModelEntry.plain v0)) rest) k
            = some (ModelEntry.plain v)
        exact ih _ hnd.2 h1

/-- C8: handling a handshake envelope merges the host defaults into the
child model by per-key shallow overwrite — each key present in the
defaults now reads as the host's value, every other key is unchanged —
and this happens exactly once: the shake listener is removed by the
handling, so any later envelope is a no-op for the responder. -/
theorem c8_model_merge (s : ResponderState) (e : MessageEvent) (d : MsgData)
    (defaults : Obj Val)
    (hl : s.listenerActive = true)
    (hd : e.data = some (Payload.obj d))
    (hpm : d.postmate = some "handshake")
    (hm : d.model = some defaults)
    (hnd : (defaults.map Prod.fst).Nodup) :
    (shakeStep s e).1.model = mergeDefaults s.model defaults ∧
    (∀ k v, objGet defaults k = some v →
       objGet (shakeStep s e).1.model k = some (ModelEntry.plain v)) ∧
    (∀ k, objGet defaults k = none →
       objGet (shakeStep s e).1.model k = objGet s.model k) ∧
    (shakeStep s e).1.listenerActive = false ∧
    (∀ e2, shakeStep (shakeStep s e).1 e2 = ((shakeStep s e).1, [])) := by
  have hstep : (shakeStep s e).1
      = { s with listenerActive := false,
                 parentOrigin := some e.origin,
                 model := mergeDefaults s.model defaults,
                 settled := settle s.settled (Settled.resolved e.origin) } := by
    simp [shakeStep, hl, postmateTruthy, hd, hpm, payloadPostmate,
      payloadModel, hm]
  rw [hstep]
  refine ⟨rfl, ?_, ?_, rfl, ?_⟩
  · intro k v hv
    exact mergeDefaults_in s.model defaults k v hnd hv
  · intro k hk
    exact mergeDefaults_not_in s.model defaults k hk
  · intro e2
    rfl

/-- The child model of the claim's example: greeting = "hello",
count = 1. -/
def exampleChildModel : Obj ModelEntry :=
  [("greeting", ModelEntry.plain (Val.vstr "hello")),
   ("count", ModelEntry.plain (Val.vnat 1))]

/-- The responder awaiting the handshake with the example child model. -/
def exampleResponder : ResponderState :=
  { listenerActive := true, model := exampleChildModel,
    parentOrigin := none, settled := none }

/-- The handshake envelope carrying the host defaults of the claim's
example: greeting = "hi". -/
def exampleHandshake : MessageEvent :=
  { origin := "https://parent.example", source := "parent",
    data := some (Payload.obj
      { postmate := some "handshake", type := some messageType,
        model := some [("greeting", Val.vstr "hi")] }) }

/-- Witness: the claim's example — host defaults greeting = "hi" merged
against child model (greeting = "hello", count = 1) yield the child-side
model (greeting = "hi", count = 1). -/
theorem c8_model_merge_witness :
    (shakeStep exampleResponder exampleHandshake).1.model
      = [("greeting", ModelEntry.plain (Val.vstr "hi")),
         ("count", ModelEntry.plain (Val.vnat 1))] ∧
    objGet (shakeStep exampleResponder exampleHandshake).1.model "greeting"
      = some (ModelEntry.plain (Val.vstr "hi")) ∧
    objGet (shakeStep exampleResponder exampleHandshake).1.model "count"
      = some (ModelEntry.plain (Val.vnat 1)) := by
  have h := c8_model_merge exampleResponder exampleHandshake
    { postmate := some "handshake", type := some messageType,
      model := some [("greeting", Val.vstr "hi")] }
    [("greeting", Val.vstr "hi")] rfl rfl rfl rfl (by decide)
  exact ⟨h.1.trans (by decide),
         h.2.1 "greeting" (Val.vstr "hi") (by decide),
         (h.2.2.1 "count" (by decide)).trans (by decide)⟩

/-- A host handle with one unresolved pending `get` (uid 1). -/
def pendingHost : HostState :=
  { listenerActive := true, pending := [{ uid := 1, resolved := none }] }

/-- A matching reply from the trusted child arriving after `destroy`. -/
def postDestroyReply : MessageEvent :=
  { origin := trustedChildOrigin, source := "child",
    data := some (Payload.obj
      { postmate := some "reply", type := some messageType,
        uid := some 1, value := some (Val.vnat 42) }) }

/-- C9 counterexample: `destroy()` does not remove the `transact`
listeners of unresolved `get` calls — after `destroy`, a Reply with the
matching uid still resolves the pending get (here with 42). -/
theorem c9_counterexample :
    (hostDeliver trustedChildOrigin [] (hostDestroy pendingHost)
      postDestroyReply).1.pending
      = [{ uid := 1, resolved := some (Val.vnat 42) }] := by decide

/-- C9 (amended): `destroy()` removes the handle's emit message listener,
so after `destroy` the handle produces no further event-callback effects
for any inbound envelope; but the PendingRequests created by unresolved
`get` calls survive the teardown, and an inbound Reply is processed by
them exactly as before the `destroy`. -/
theorem c9_destroy_behavior (co : String) (events : Obj (List Nat))
    (s : HostState) (e : MessageEvent) :
    (hostDeliver co events (hostDestroy s) e).2 = [] ∧
    (hostDeliver co events (hostDestroy s) e).1.listenerActive = false ∧
    (hostDeliver co events (hostDestroy s) e).1.pending
      = (hostDeliver co events s e).1.pending := by
  exact ⟨rfl, rfl, rfl⟩
